import Mathlib

/-!
Verification development for the graph fraud demo backend.

The definitions below are a shallow embedding of the Python sources:
  backend/services/fraud_service.py
  backend/services/transaction_generator.py
  backend/services/performance_monitor.py
  backend/cli_main.py

Graph traversals are modelled by their projection results (the data the
traversal hands back to the Python code); wall-clock timestamps, uuids and
random draws are explicit parameters.  Fallible Python code is modelled with
Except; a Python function that returns None where a tuple is expected is
modelled with Option.
-/

namespace FraudDemo

/-! ### fraud_service.py : result shapes -/

/-- One entry of the flagged_connections list built by
FraudService._create_flagged_connection. -/
structure FlaggedConnection where
  account_id : String
  role : String
  level : Nat
  fraud_score : Nat
deriving Repr, DecidableEq

/-- The details dict built by run_rt1_fraud_detection. -/
structure RT1Details where
  flagged_connections : List FlaggedConnection
  max_level : Nat
  total_connections : Nat
  detection_time : String
  fraud_score : Nat
  reason : String
  rule : String
deriving Repr, DecidableEq

/-- The details dict built by run_rt2_fraud_detection. -/
structure RT2Details where
  flagged_devices : List String
  sender_account : String
  receiver_account : String
  connected_accounts_checked : Nat
  detection_time : String
  fraud_score : Nat
  reason : String
  rule : String
deriving Repr, DecidableEq

/-- A rule result carries either an RT1-shaped or an RT2-shaped details dict. -/
inductive RuleDetails where
  | rt1 (d : RT1Details)
  | rt2 (d : RT2Details)
deriving Repr, DecidableEq

/-- The rule id stored in a details dict. -/
def RuleDetails.ruleId : RuleDetails → String
  | .rt1 d => d.rule
  | .rt2 d => d.rule

/-- The reason text stored in a details dict. -/
def RuleDetails.reasonText : RuleDetails → String
  | .rt1 d => d.reason
  | .rt2 d => d.reason

/-- The dict built by FraudService._create_fraud_result. -/
structure FraudResult where
  is_fraud : Bool
  fraud_score : Nat
  status : String
  eval_timestamp : String
  details : RuleDetails
deriving Repr, DecidableEq

/-- FraudService._create_fraud_result; `now` stands for datetime.now().isoformat(). -/
def create_fraud_result (score : Nat) (status : String) (details : RuleDetails)
    (now : String) : FraudResult :=
  { is_fraud := true, fraud_score := score, status := status,
    eval_timestamp := now, details := details }

/-- FraudService._create_flagged_connection. -/
def create_flagged_connection (account_id role : String) (level score : Nat) :
    FlaggedConnection :=
  { account_id := account_id, role := role, level := level, fraud_score := score }

/-! ### json.dumps, as used on the details dicts -/

/-- A JSON string literal (ids and reasons in this code need no escaping). -/
def jsonStr (s : String) : String := "\"" ++ s ++ "\""

/-- A JSON object from already-serialised fields, python json.dumps layout. -/
def jsonObjOf (fields : List (String × String)) : String :=
  "\x7b" ++ String.intercalate ", " (fields.map fun p => jsonStr p.1 ++ ": " ++ p.2) ++ "\x7d"

/-- A JSON array from already-serialised items. -/
def jsonArrOf (items : List String) : String :=
  "[" ++ String.intercalate ", " items ++ "]"

def jsonFlaggedConnection (c : FlaggedConnection) : String :=
  jsonObjOf [("account_id", jsonStr c.account_id), ("role", jsonStr c.role),
    ("level", toString c.level), ("fraud_score", toString c.fraud_score)]

/-- json.dumps of a details dict, as appended by _store_fraud_results. -/
def jsonDumps : RuleDetails → String
  | .rt1 d => jsonObjOf
      [("flagged_connections", jsonArrOf (d.flagged_connections.map jsonFlaggedConnection)),
       ("max_level", toString d.max_level),
       ("total_connections", toString d.total_connections),
       ("detection_time", jsonStr d.detection_time),
       ("fraud_score", toString d.fraud_score),
       ("reason", jsonStr d.reason),
       ("rule", jsonStr d.rule)]
  | .rt2 d => jsonObjOf
      [("flagged_devices", jsonArrOf (d.flagged_devices.map jsonStr)),
       ("sender_account", jsonStr d.sender_account),
       ("receiver_account", jsonStr d.receiver_account),
       ("connected_accounts_checked", toString d.connected_accounts_checked),
       ("detection_time", jsonStr d.detection_time),
       ("fraud_score", toString d.fraud_score),
       ("reason", jsonStr d.reason),
       ("rule", jsonStr d.rule)]

/-! ### fraud_service.py : the rules -/

/-- Result of the RT1 projection on a TRANSACTS edge, after the dict.get
defaults in run_rt1_fraud_detection: `direct` defaults to the empty string
(Python falsy) and `out_1` to the empty list.  A traversal error makes the
inner helper return an empty dict, which is the all-defaults value. -/
structure RT1Projection where
  sender_direct : String
  sender_out_1 : List String
  receiver_direct : String
  receiver_out_1 : List String
deriving Repr, DecidableEq

/-- FraudService.run_rt1_fraud_detection, as a function of the projection
result; returns the (rt1_fraud, rt1_reason, rt1_result) triple. -/
def run_rt1_fraud_detection (now : String) (p : RT1Projection) :
    Bool × String × Option FraudResult :=
  if p.sender_direct = "" ∧ p.sender_out_1.length < 1 ∧
      p.receiver_direct = "" ∧ p.receiver_out_1.length < 1 then
    (false, "No flagged accounts involved", none)
  else
    let direct_conns : List FlaggedConnection :=
      (if p.sender_direct ≠ "" then
        [create_flagged_connection p.sender_direct "sender" 0 100] else []) ++
      (if p.receiver_direct ≠ "" then
        [create_flagged_connection p.receiver_direct "receiver" 0 100] else [])
    -- both level-1 blocks in the source are guarded by len(sender_out_1) > 0
    let max_level : Nat := if p.sender_out_1.length > 0 then 1 else 0
    let flagged_connections : List FlaggedConnection := direct_conns ++
      (if p.sender_out_1.length > 0 then
        p.sender_out_1.map (fun c => create_flagged_connection c "sender_txn_partner" 1 75)
      else []) ++
      (if p.sender_out_1.length > 0 then
        p.receiver_out_1.map (fun c => create_flagged_connection c "receiver_txn_partner" 1 75)
      else [])
    let total_connections := flagged_connections.length
    let fraud_score : Nat :=
      if max_level = 0 then 100 else min (75 + total_connections * 5) 95
    let status := if fraud_score ≥ 90 then "blocked" else "review"
    let reason := "Connected to " ++ toString total_connections ++ " flagged account(s) - " ++
      (if max_level = 0 then "direct fraud" else "transaction partners")
    let details : RT1Details :=
      { flagged_connections := flagged_connections, max_level := max_level,
        total_connections := total_connections, detection_time := now,
        fraud_score := fraud_score, reason := reason,
        rule := "RT1_MultiLevelFlaggedAccountRule" }
    (true, reason, some (create_fraud_result fraud_score status (.rt1 details) now))

/-- Result of the RT2 projection on a TRANSACTS edge, after the dict.get
defaults in run_rt2_fraud_detection. -/
structure RT2Projection where
  sender : String
  receiver : String
  accounts : List String
  devices : List String
deriving Repr, DecidableEq

/-- FraudService.run_rt2_fraud_detection, as a function of the projection
result; returns the (rt2_fraud, rt2_reason, rt2_result) triple. -/
def run_rt2_fraud_detection (now : String) (p : RT2Projection) :
    Bool × String × Option FraudResult :=
  if p.devices.length < 1 then
    (false, "No flagged devices connected to transaction network", none)
  else
    let reason := "Transaction involves accounts connected to flagged devices in transaction network: " ++
      String.intercalate ", " p.devices
    let details : RT2Details :=
      { flagged_devices := p.devices, sender_account := p.sender,
        receiver_account := p.receiver,
        connected_accounts_checked := p.accounts.length,
        detection_time := now, fraud_score := 85, reason := reason,
        rule := "RT2_FlaggedDeviceConnection" }
    (true, reason, some (create_fraud_result 85 "review" (.rt2 details) now))

/-- FraudService.run_rt3_fraud_detection: the whole body is commented out and
the function falls through with `pass`, so the coroutine returns None instead
of the declared (bool, str, dict) triple.  Option models that: none means the
Python return value None. -/
def run_rt3_fraud_detection (_edge_id _txn_id : String) :
    Option (Bool × String × Option FraudResult) :=
  none

/-! ### fraud_service.py : service state and merge -/

/-- The three rule-enable flags of FraudService. -/
structure FraudConfig where
  rt1_enabled : Bool
  rt2_enabled : Bool
  rt3_enabled : Bool
deriving Repr, DecidableEq

/-- FraudService.__init__: the flag values a freshly constructed service has. -/
def initFraudService : FraudConfig :=
  { rt1_enabled := true, rt2_enabled := true, rt3_enabled := false }

/-- FraudService.toggle_fraud_checks_state. -/
def toggle_fraud_checks_state (cfg : FraudConfig) (check : String) (enabled : Bool) :
    FraudConfig × Bool :=
  if check = "rt1" then ({ cfg with rt1_enabled := enabled }, true)
  else if check = "rt2" then ({ cfg with rt2_enabled := enabled }, true)
  else if check = "rt3" then ({ cfg with rt3_enabled := enabled }, true)
  else (cfg, false)

/-- The fraud annotation written onto the edge by _store_fraud_results. -/
structure FraudAnnotation where
  is_fraud : Bool
  fraud_score : Nat
  fraud_status : String
  eval_timestamp : String
  details : List String
deriving Repr, DecidableEq

/-- The merge loop of FraudService._store_fraud_results over the list
[checks.get rt1, checks.get rt2, checks.get rt3]; a missing key is the empty
dict, which the loop skips. -/
def store_fraud_results (now : String) (rt1 rt2 rt3 : Option FraudResult) :
    FraudAnnotation :=
  let step := fun (acc : Nat × List String × String) (c : Option FraudResult) =>
    match c with
    | none => acc
    | some ch =>
        (if ch.fraud_score > acc.1 then ch.fraud_score else acc.1,
         acc.2.1 ++ [jsonDumps ch.details],
         if ch.status = "blocked" then "blocked" else acc.2.2)
  let r := [rt1, rt2, rt3].foldl step (0, [], "review")
  { is_fraud := true, fraud_score := r.1, fraud_status := r.2.2,
    eval_timestamp := now, details := r.2.1 }

/-- The data an edge environment supplies to one fraud evaluation: the ids and
the two projection results the graph returns for this edge. -/
structure EdgeEnv where
  edge_id : String
  txn_id : String
  rt1proj : RT1Projection
  rt2proj : RT2Projection
deriving Repr, DecidableEq

/-- The rt1 entry of the fraud_checks dict built by run_fraud_detection. -/
def rt1_check (cfg : FraudConfig) (now : String) (env : EdgeEnv) : Option FraudResult :=
  if cfg.rt1_enabled then
    let r := run_rt1_fraud_detection now env.rt1proj
    if r.1 then r.2.2 else none
  else none

/-- The rt2 entry of the fraud_checks dict built by run_fraud_detection. -/
def rt2_check (cfg : FraudConfig) (now : String) (env : EdgeEnv) : Option FraudResult :=
  if cfg.rt2_enabled then
    let r := run_rt2_fraud_detection now env.rt2proj
    if r.1 then r.2.2 else none
  else none

/-- FraudService.run_fraud_detection.  The value is the annotation written to
the edge (ok none when fraud_checks stayed empty and nothing is written).
When rt3 is enabled, unpacking the None returned by run_rt3_fraud_detection
raises, the except block re-raises, and nothing is stored. -/
def run_fraud_detection (cfg : FraudConfig) (now : String) (env : EdgeEnv) :
    Except String (Option FraudAnnotation) :=
  let c1 := rt1_check cfg now env
  let c2 := rt2_check cfg now env
  if cfg.rt3_enabled then
    match run_rt3_fraud_detection env.edge_id env.txn_id with
    | none => Except.error
        ("Error in RT3 fraud detection for transaction " ++ env.txn_id ++
         ": cannot unpack non-iterable NoneType object")
    | some r3 =>
        let c3 := if r3.1 then r3.2.2 else none
        if c1 = none ∧ c2 = none ∧ c3 = none then Except.ok none
        else Except.ok (some (store_fraud_results now c1 c2 c3))
  else
    if c1 = none ∧ c2 = none then Except.ok none
    else Except.ok (some (store_fraud_results now c1 c2 none))

/-- The list of triggered, enabled rule results, in rule order: this is the
sequence of non-empty checks the _store_fraud_results loop visits when rt3 is
disabled. -/
def triggeredResults (cfg : FraudConfig) (now : String) (env : EdgeEnv) :
    List FraudResult :=
  (rt1_check cfg now env).toList ++ (rt2_check cfg now env).toList

/-! ### transaction_generator.py : manual and generated transactions -/

/-- A TRANSACTS edge as written by create_manual_transaction:
V(from_id).addE(TRANSACTS).to(V(to_id)) plus the property map.  outV is the
source account, inV the destination account. -/
structure TransactsEdge where
  outV : String
  inV : String
  txn_id : String
  amount : Rat
  currency : String
  type : String
  method : String
  location : String
  timestamp : String
  status : String
  gen_type : String
deriving Repr, DecidableEq

/-- The dict returned by create_manual_transaction: either the success record
(with the graph-assigned edge id and the generated txn id) or the failure
record carrying the error message. -/
structure ManualTxnResult where
  success : Bool
  edge_id : String
  txn_id : String
  errorMsg : String
deriving Repr, DecidableEq

/-- The non-deterministic inputs of one create_manual_transaction call: the
vertex-existence answers of the graph, the edge id the graph assigns, the
uuid, the random location draw and the current timestamp. -/
structure GraphEnv where
  vertexExists : String → Bool
  new_edge_id : String
  txn_id : String
  location : String
  now : String

/-- round(amount, 2).  Python rounds the float to two decimals; ties at the
third decimal are not exercised by any claim, so round-half-up on rationals
stands in for the float rounding. -/
def round2 (a : Rat) : Rat := (⌊a * 100 + 1/2⌋ : Rat) / 100

/-- TransactionGeneratorService.create_manual_transaction.  The value is the
returned dict, the TRANSACTS edge written to the graph (none when the call
fails before the write), and the list of fraud submissions the call makes,
as (edge_id, txn_id) pairs — the source makes none. -/
def create_manual_transaction (env : GraphEnv) (from_id to_id : String)
    (amount : Rat) (ttype : String) (gen_type : String) (force : Bool) :
    ManualTxnResult × Option TransactsEdge × List (String × String) :=
  if ¬ force ∧ env.vertexExists from_id = false then
    ({ success := false, edge_id := "", txn_id := "",
       errorMsg := "Source account " ++ from_id ++ " not found" }, none, [])
  else if ¬ force ∧ env.vertexExists to_id = false then
    ({ success := false, edge_id := "", txn_id := "",
       errorMsg := "Destination account " ++ to_id ++ " not found" }, none, [])
  else if from_id = to_id then
    ({ success := false, edge_id := "", txn_id := "",
       errorMsg := "Source and destination accounts cannot be the same" }, none, [])
  else
    ({ success := true, edge_id := env.new_edge_id, txn_id := env.txn_id,
       errorMsg := "" },
     some { outV := from_id, inV := to_id, txn_id := env.txn_id,
            amount := round2 amount, currency := "USD", type := ttype,
            method := "electronic_transfer", location := env.location,
            timestamp := env.now, status := "completed", gen_type := gen_type },
     [])

/-- TransactionGeneratorService.generate_transaction.  `accounts` is the
account-id cache (already refreshed when empty: the refetched value is the
same parameter), i and j are the two distinct positions random.sample picks.
random.sample raises ValueError when the cache holds fewer than two ids; the
except block re-raises, which Except.error models. -/
def generate_transaction (env : GraphEnv) (accounts : List String) (i j : Nat)
    (amount : Rat) (ttype : String) :
    Except String (ManualTxnResult × Option TransactsEdge × List (String × String)) :=
  if accounts.length < 1 then
    Except.error "No accounts available"
  else if h : i < accounts.length ∧ j < accounts.length ∧ i ≠ j then
    let sender := accounts.get ⟨i, h.1⟩
    let receiver := accounts.get ⟨j, h.2.1⟩
    Except.ok (create_manual_transaction env sender receiver amount ttype "AUTO" true)
  else
    Except.error "Sample larger than population or is negative"

/-! ### the AUTO worker task (transaction_generator.py TransactionWorker)
and dynamic attribute lookup on the two collaborating services -/

/-- The methods class FraudService defines (fraud_service.py). -/
def fraudServiceMethods : List String :=
  ["toggle_fraud_checks_state", "get_fraud_checks_state",
   "_create_flagged_connection", "_create_fraud_result", "_store_fraud_results",
   "run_fraud_detection", "run_rt1_fraud_detection", "run_rt2_fraud_detection",
   "run_rt3_fraud_detection"]

/-- The methods class PerformanceMonitor defines (performance_monitor.py). -/
def performanceMonitorMethods : List String :=
  ["record_rt1_performance", "_record_rt1_performance_background",
   "record_rt2_performance", "_record_rt2_performance_background",
   "record_rt3_performance", "_record_rt3_performance_background",
   "record_transaction_scheduled", "_record_transaction_scheduled_background",
   "record_transaction_completed", "_record_transaction_completed_background",
   "record_transaction_failed", "_record_transaction_failed_background",
   "_update_current_tps", "set_generation_state", "reset_transaction_metrics",
   "get_transaction_stats", "get_rt1_stats", "get_rt2_stats", "get_rt3_stats",
   "_get_method_stats", "_get_cache_status", "get_all_stats",
   "get_recent_timeline_data", "reset_metrics"]

/-- Python attribute lookup: accessing a missing method raises AttributeError. -/
def hasAttr (methods : List String) (name : String) : Bool :=
  methods.contains name

/-- What one TransactionWorker._execute_transaction call records and submits. -/
structure ExecOutcome where
  completedDetailedRecorded : Bool
  failedRecorded : Bool
  fraudSubmitted : List (String × String)
deriving Repr, DecidableEq

/-- TransactionWorker._execute_transaction, from the generate_transaction
result on.  A raising generate_transaction is the error case.  On a successful
write the worker looks up fraud_service.submit_fraud_detection_async and then
performance_monitor.record_transaction_completed_detailed; a missing attribute
raises and the except block records the transaction as failed. -/
def execute_transaction
    (genResult : Except String (ManualTxnResult × Option TransactsEdge × List (String × String))) :
    ExecOutcome :=
  match genResult with
  | .error _ =>
      { completedDetailedRecorded := false, failedRecorded := true, fraudSubmitted := [] }
  | .ok r =>
      if r.1.success then
        if hasAttr fraudServiceMethods "submit_fraud_detection_async" then
          -- the submission would happen here, then the detailed perf sample
          if hasAttr performanceMonitorMethods "record_transaction_completed_detailed" then
            { completedDetailedRecorded := true, failedRecorded := false,
              fraudSubmitted := [(r.1.edge_id, r.1.txn_id)] }
          else
            { completedDetailedRecorded := false, failedRecorded := true,
              fraudSubmitted := [(r.1.edge_id, r.1.txn_id)] }
        else
          -- AttributeError before any submission
          { completedDetailedRecorded := false, failedRecorded := true,
            fraudSubmitted := [] }
      else
        { completedDetailedRecorded := false, failedRecorded := true,
          fraudSubmitted := [] }

/-! ### transaction_generator.py : start_generation and the CLI wrapper -/

/-- The TransactionGeneratorService state start_generation touches. -/
structure GeneratorState where
  is_running : Bool
  max_generation_rate : Rat
  generation_rate : Rat
  transaction_counter : Nat
  account_vertices : List String
  start_time : String
deriving Repr, DecidableEq

/-- The state of a freshly constructed generator whose store.pckl read fell
back to the default: get_stored_max_transaction_rate returns 50. -/
def initGeneratorState : GeneratorState :=
  { is_running := false, max_generation_rate := 50, generation_rate := 1,
    transaction_counter := 0, account_vertices := [], start_time := "" }

/-- Side effects a start_generation call performs on its collaborators. -/
structure StartEffects where
  workersStarted : Bool
  metricsReset : Bool
  schedulerStartCalled : Bool
deriving Repr, DecidableEq

def noStartEffects : StartEffects :=
  { workersStarted := false, metricsReset := false, schedulerStartCalled := false }

/-- TransactionGeneratorService.start_generation.  `fetch` is the outcome of
the account-id query V().hasLabel(account).id().toList(); `schedulerOk` is
what TransactionScheduler.start_generation returns (false when the readiness
latch times out).  The value is (return value, new state, effects).  The
source contains no comparison of rate against max_generation_rate. -/
def start_generation (st : GeneratorState) (rate : Rat) (startTs : String)
    (fetch : Except String (List String)) (schedulerOk : Bool) :
    Bool × GeneratorState × StartEffects :=
  if st.is_running then (false, st, noStartEffects)
  else
    let eff0 : StartEffects := { noStartEffects with workersStarted := true }
    match fetch with
    | .error _ => (false, st, eff0)
    | .ok accounts =>
        let st1 := { st with account_vertices := accounts }
        if accounts.length < 1 then (false, st1, eff0)
        else
          let st2 := { st1 with
            generation_rate := rate, is_running := true,
            transaction_counter := 0, start_time := startTs }
          let eff1 := { eff0 with metricsReset := true, schedulerStartCalled := true }
          if schedulerOk then (true, st2, eff1)
          else (false, { st2 with is_running := false }, eff1)

/-- cli_main.py _start_generator: the CLI front end of start_generation.  It
rejects only tps ≤ 0; any positive tps is passed straight through (tps > 1000
merely prints a warning).  No path reads max_generation_rate. -/
def cli_start_generator (st : GeneratorState) (tps : Rat)
    (fetch : Except String (List String)) (schedulerOk : Bool) :
    Bool × GeneratorState × StartEffects :=
  if tps ≤ 0 then (false, st, noStartEffects)
  else start_generation st tps "" fetch schedulerOk

/-! ### transaction_generator.py : TransactionScheduler -/

/-- Python int() on a float: truncation toward zero. -/
def pyInt (q : Rat) : Int := if 0 ≤ q then ⌊q⌋ else ⌈q⌉

/-- TransactionScheduler.start_generation:
workers_needed = max(1, math.ceil(tps / SCHEDULER_TPS_CAPACITY)), capacity 100. -/
def workers_needed (tps : Rat) : Int := max 1 ⌈tps / 100⌉

/-- tps_per_worker = tps / workers_needed. -/
def tps_per_worker (tps : Rat) : Rat := tps / (workers_needed tps : Rat)

/-- The per-second burst bound of _generation_loop:
max_transactions_per_second = int(worker_tps) * 1.5. -/
def max_transactions_per_second (worker_tps : Rat) : Rat :=
  (pyInt worker_tps : Rat) * 3 / 2

/-- The mutable state of one scheduler thread inside _generation_loop. -/
structure SchedState where
  current_second : Int
  transactions_this_second : Nat
  next_time : Rat
deriving Repr, DecidableEq

/-- The per-second counter reset at the top of the _generation_loop body: when
the wall-clock second of t differs from current_second, adopt it and zero the
counter. -/
def resetState (st : SchedState) (t : Rat) : SchedState :=
  if ⌊t⌋ ≠ st.current_second then
    { st with current_second := ⌊t⌋, transactions_this_second := 0 }
  else st

/-- One iteration of the _generation_loop body, at wall-clock time t (seconds):
reset the per-second counter on a second boundary, skip when at the burst
bound, submit one task when the pacing time has arrived.  The Bool is whether
this iteration submitted a task. -/
def schedStep (worker_tps : Rat) (st : SchedState) (t : Rat) : SchedState × Bool :=
  let st1 := resetState st t
  if max_transactions_per_second worker_tps ≤ (st1.transactions_this_second : Rat) then
    (st1, false)
  else if st1.next_time ≤ t then
    ({ st1 with transactions_this_second := st1.transactions_this_second + 1,
                next_time := st1.next_time + 1 / worker_tps }, true)
  else
    (st1, false)

/-- Run the loop over a trace of iteration times, returning the times at which
a task was submitted. -/
def schedRun (worker_tps : Rat) (st : SchedState) : List Rat → List Rat
  | [] => []
  | t :: ts =>
      let s := schedStep worker_tps st t
      if s.2 then t :: schedRun worker_tps s.1 ts else schedRun worker_tps s.1 ts

/-- How many submissions of a trace fall in the aligned wall-clock second k,
that is have floor k. -/
def countInSecond (k : Int) (l : List Rat) : Nat :=
  (l.filter fun t => ⌊t⌋ = k).length

/-- The largest number of submissions one scheduler thread can make in an
aligned second: the counter check `transactions_this_second >= cap` with an
integer counter admits exactly ceil(cap) submissions for cap ≥ 0. -/
def burstCapN (worker_tps : Rat) : Nat :=
  (⌈max_transactions_per_second worker_tps⌉).toNat

/-! ## Theorems -/

/-- C6 counterexample: a freshly constructed FraudService does not have all
three rule flags true: FraudService.__init__ sets rt3_enabled = False. -/
theorem c6_counterexample :
    ¬ (initFraudService.rt1_enabled = true ∧ initFraudService.rt2_enabled = true ∧
       initFraudService.rt3_enabled = true) := by
  decide

/-- C6 amended: a freshly constructed fraud service has rt1_enabled and
rt2_enabled true but rt3_enabled false. -/
theorem c6_default_flags :
    initFraudService.rt1_enabled = true ∧ initFraudService.rt2_enabled = true ∧
    initFraudService.rt3_enabled = false := by
  decide

/-- C4: neither FraudService.submit_fraud_detection_async nor
PerformanceMonitor.record_transaction_completed_detailed exists, so every
worker task whose graph write succeeds raises at the fraud-submission step of
_execute_transaction: it is recorded as a failed transaction, no detailed
completion sample is recorded, and no fraud evaluation is submitted. -/
theorem c4_auto_pipeline_always_fails :
    hasAttr fraudServiceMethods "submit_fraud_detection_async" = false ∧
    hasAttr performanceMonitorMethods "record_transaction_completed_detailed" = false ∧
    ∀ gen : ManualTxnResult × Option TransactsEdge × List (String × String),
      gen.1.success = true →
      execute_transaction (Except.ok gen) =
        { completedDetailedRecorded := false, failedRecorded := true, fraudSubmitted := [] } := by
  refine ⟨by decide, by decide, ?_⟩
  intro gen h
  simp [execute_transaction, h, hasAttr, fraudServiceMethods]

/-- C4 witness: the conclusion at one concrete successful write. -/
theorem c4_auto_pipeline_always_fails_witness :
    (({ success := true, edge_id := "edge_1", txn_id := "txn_1", errorMsg := "" } :
        ManualTxnResult), (none : Option TransactsEdge),
        ([] : List (String × String))).1.success = true ∧
    execute_transaction (Except.ok
      (({ success := true, edge_id := "edge_1", txn_id := "txn_1", errorMsg := "" } :
        ManualTxnResult), (none : Option TransactsEdge), ([] : List (String × String)))) =
      { completedDetailedRecorded := false, failedRecorded := true, fraudSubmitted := [] } :=
  ⟨rfl, c4_auto_pipeline_always_fails.2.2 _ rfl⟩

/-- C5 counterexample: a successful manual transaction makes no fraud
submission at all, although rule rt1 is enabled by default — the claimed
write-then-submit path does not exist in create_manual_transaction. -/
theorem c5_counterexample :
    (create_manual_transaction ⟨fun _ => true, "edge_77", "txn_77", "loc", "T"⟩
      "acc_1" "acc_2" (12345/100) "transfer" "MANUAL" false).1.success = true ∧
    initFraudService.rt1_enabled = true ∧
    (create_manual_transaction ⟨fun _ => true, "edge_77", "txn_77", "loc", "T"⟩
      "acc_1" "acc_2" (12345/100) "transfer" "MANUAL" false).2.2 = [] := by
  refine ⟨?_, rfl, ?_⟩ <;> rfl

/-- C5 amended: create_manual_transaction writes the TRANSACTS edge and
returns the new edge id and txn id, but submits no fraud evaluation: the
submissions list is empty on every path, so no rule is evaluated on the new
edge. -/
theorem c5_manual_txn_no_fraud_submission (env : GraphEnv) (from_id to_id : String)
    (amount : Rat) (ttype gen_type : String) (force : Bool) :
    (create_manual_transaction env from_id to_id amount ttype gen_type force).2.2 = [] ∧
    ((create_manual_transaction env from_id to_id amount ttype gen_type force).1.success = true →
      (create_manual_transaction env from_id to_id amount ttype gen_type force).1.edge_id =
        env.new_edge_id ∧
      (create_manual_transaction env from_id to_id amount ttype gen_type force).1.txn_id =
        env.txn_id ∧
      ∃ e, (create_manual_transaction env from_id to_id amount ttype gen_type force).2.1 =
          some e ∧ e.outV = from_id ∧ e.inV = to_id ∧ e.gen_type = gen_type) := by
  unfold create_manual_transaction
  split_ifs <;> simp

/-- C5 witness: the amended statement at one concrete successful call. -/
theorem c5_manual_txn_no_fraud_submission_witness :
    (create_manual_transaction ⟨fun _ => true, "edge_77", "txn_77", "loc", "T"⟩
      "acc_1" "acc_2" 5 "transfer" "MANUAL" false).2.2 = [] ∧
    (create_manual_transaction ⟨fun _ => true, "edge_77", "txn_77", "loc", "T"⟩
      "acc_1" "acc_2" 5 "transfer" "MANUAL" false).1.edge_id = "edge_77" ∧
    (create_manual_transaction ⟨fun _ => true, "edge_77", "txn_77", "loc", "T"⟩
      "acc_1" "acc_2" 5 "transfer" "MANUAL" false).1.txn_id = "txn_77" := by
  have h := c5_manual_txn_no_fraud_submission
    ⟨fun _ => true, "edge_77", "txn_77", "loc", "T"⟩ "acc_1" "acc_2" 5 "transfer" "MANUAL" false
  exact ⟨h.1, (h.2 rfl).1, (h.2 rfl).2.1⟩

/-- C9: every TRANSACTS edge written by create_manual_transaction or
generate_transaction has distinct endpoints, and a manual transaction from an
account to itself fails with no edge written. -/
theorem c9_distinct_endpoints :
    (∀ (env : GraphEnv) (from_id to_id : String) (amount : Rat)
       (ttype gen_type : String) (force : Bool) (e : TransactsEdge),
      (create_manual_transaction env from_id to_id amount ttype gen_type force).2.1 = some e →
      e.outV ≠ e.inV) ∧
    (∀ (env : GraphEnv) (accounts : List String) (i j : Nat) (amount : Rat) (ttype : String)
       (r : ManualTxnResult × Option TransactsEdge × List (String × String)) (e : TransactsEdge),
      generate_transaction env accounts i j amount ttype = Except.ok r →
      r.2.1 = some e → e.outV ≠ e.inV) ∧
    (∀ (env : GraphEnv) (a : String) (amount : Rat) (ttype gen_type : String) (force : Bool),
      (create_manual_transaction env a a amount ttype gen_type force).1.success = false ∧
      (create_manual_transaction env a a amount ttype gen_type force).2.1 = none) := by
  have key : ∀ (env : GraphEnv) (from_id to_id : String) (amount : Rat)
      (ttype gen_type : String) (force : Bool) (e : TransactsEdge),
      (create_manual_transaction env from_id to_id amount ttype gen_type force).2.1 = some e →
      e.outV ≠ e.inV := by
    intro env from_id to_id amount ttype gen_type force e he
    unfold create_manual_transaction at he
    split_ifs at he with h1 h2 h3
    simp at he
    rw [← he]
    simpa using h3
  refine ⟨key, ?_, ?_⟩
  · intro env accounts i j amount ttype r e hr he
    unfold generate_transaction at hr
    split_ifs at hr with h1 h2
    · simp at hr
      subst hr
      exact key env _ _ amount ttype "AUTO" true e he
  · intro env a amount ttype gen_type force
    unfold create_manual_transaction
    split_ifs <;> simp_all

/-- C2 counterexample: on a transaction edge whose neighbourhood projection
returns a flagged device, RT3 does not trigger — run_rt3_fraud_detection
returns no (triggered, reason, result) triple at all; the score-85 review
verdict for that projection is produced by RT2, under rule id
RT2_FlaggedDeviceConnection, not RT3_FlaggedDeviceConnection. -/
theorem c2_counterexample :
    (⟨"a1", "a2", [], ["device_7"]⟩ : RT2Projection).devices.length ≥ 1 ∧
    run_rt3_fraud_detection "edge_1" "txn_1" = none ∧
    ((run_rt2_fraud_detection "T" ⟨"a1", "a2", [], ["device_7"]⟩).2.2.map
      fun r => (r.fraud_score, r.status, r.details.ruleId)) =
      some (85, "review", "RT2_FlaggedDeviceConnection") := by
  refine ⟨by decide, rfl, rfl⟩

/-- C2 amended: the flagged-device rule of fraud_service.py is RT2:
run_rt2_fraud_detection triggers iff the projection returned at least one
flagged device, and a triggered result has score 85, status review, a reason
listing the flagged devices, and rule id RT2_FlaggedDeviceConnection; while
run_rt3_fraud_detection is a stub that never produces a result. -/
theorem c2_rt2_flagged_device_rule (now : String) (p : RT2Projection) :
    ((run_rt2_fraud_detection now p).1 = true ↔ p.devices ≠ []) ∧
    (p.devices ≠ [] → ∃ res, (run_rt2_fraud_detection now p).2.2 = some res ∧
      res.fraud_score = 85 ∧ res.status = "review" ∧
      res.details.ruleId = "RT2_FlaggedDeviceConnection" ∧
      res.details.reasonText =
        "Transaction involves accounts connected to flagged devices in transaction network: " ++
          String.intercalate ", " p.devices ∧
      (run_rt2_fraud_detection now p).2.1 = res.details.reasonText) ∧
    (∀ e t, run_rt3_fraud_detection e t = none) := by
  refine ⟨?_, ?_, fun _ _ => rfl⟩
  · unfold run_rt2_fraud_detection
    split_ifs with h <;>
      simp only [Nat.lt_one_iff, List.length_eq_zero] at h <;>
      simp [h]
  · intro hd
    unfold run_rt2_fraud_detection
    rw [if_neg (by simp [Nat.lt_one_iff, List.length_eq_zero, hd])]
    exact ⟨_, rfl, rfl, rfl, rfl, rfl, rfl⟩

/-- C2 witness: the amended statement at one concrete flagged-device
projection. -/
theorem c2_rt2_flagged_device_rule_witness :
    ∃ res, (run_rt2_fraud_detection "T" ⟨"a1", "a2", [], ["device_7"]⟩).2.2 = some res ∧
      res.fraud_score = 85 ∧ res.status = "review" ∧
      res.details.ruleId = "RT2_FlaggedDeviceConnection" ∧
      res.details.reasonText =
        "Transaction involves accounts connected to flagged devices in transaction network: " ++
          String.intercalate ", " ["device_7"] ∧
      (run_rt2_fraud_detection "T" ⟨"a1", "a2", [], ["device_7"]⟩).2.1 =
        res.details.reasonText :=
  (c2_rt2_flagged_device_rule "T" ⟨"a1", "a2", [], ["device_7"]⟩).2.1 (by decide)

/-- C3 counterexample: RT1 triggers on a projection where neither endpoint
account is flagged (both direct buckets are empty) merely because the
receiver one-hop list is non-empty, and the triggered result carries rule id
RT1_MultiLevelFlaggedAccountRule, not RT1_SingleLevelFlaggedAccountRule. -/
theorem c3_counterexample :
    (run_rt1_fraud_detection "T" ⟨"", [], "", ["edge_9"]⟩).1 = true ∧
    (⟨"", [], "", ["edge_9"]⟩ : RT1Projection).sender_direct = "" ∧
    (⟨"", [], "", ["edge_9"]⟩ : RT1Projection).receiver_direct = "" ∧
    ((run_rt1_fraud_detection "T" ⟨"", [], "", ["edge_9"]⟩).2.2.map
      fun r => (r.fraud_score, r.status, r.details.ruleId)) =
      some (100, "blocked", "RT1_MultiLevelFlaggedAccountRule") :=
  ⟨rfl, rfl, rfl, rfl⟩

/-- C3 amended: run_rt1_fraud_detection triggers iff either endpoint is
directly flagged or either one-hop flagged list is non-empty; a triggered
result carries rule id RT1_MultiLevelFlaggedAccountRule, scores 100 exactly
when the sender one-hop list is empty and min(75 + 5n, 95) otherwise, where n
counts the direct flags plus both one-hop lists, and its status is blocked
iff the score is at least 90. -/
theorem c3_rt1_characterisation (now : String) (p : RT1Projection) :
    ((run_rt1_fraud_detection now p).1 = true ↔
      (p.sender_direct ≠ "" ∨ p.sender_out_1 ≠ [] ∨
       p.receiver_direct ≠ "" ∨ p.receiver_out_1 ≠ [])) ∧
    (∀ res, (run_rt1_fraud_detection now p).2.2 = some res →
      res.details.ruleId = "RT1_MultiLevelFlaggedAccountRule" ∧
      res.fraud_score = (if p.sender_out_1 = [] then 100
        else min (75 + ((if p.sender_direct = "" then 0 else 1) +
          (if p.receiver_direct = "" then 0 else 1) +
          p.sender_out_1.length + p.receiver_out_1.length) * 5) 95) ∧
      res.status = (if 90 ≤ res.fraud_score then "blocked" else "review")) := by
  constructor
  · unfold run_rt1_fraud_detection
    by_cases hcond : p.sender_direct = "" ∧ p.sender_out_1.length < 1 ∧
        p.receiver_direct = "" ∧ p.receiver_out_1.length < 1
    · rw [if_pos hcond]
      obtain ⟨hs, hso, hr, hro⟩ := hcond
      rw [Nat.lt_one_iff, List.length_eq_zero] at hso hro
      simp [hs, hr, hso, hro]
    · rw [if_neg hcond]
      refine iff_of_true rfl ?_
      by_contra hno
      push_neg at hno
      exact hcond ⟨hno.1, by simp [hno.2.1], hno.2.2.1, by simp [hno.2.2.2]⟩
  · intro res hres
    unfold run_rt1_fraud_detection at hres
    by_cases hcond : p.sender_direct = "" ∧ p.sender_out_1.length < 1 ∧
        p.receiver_direct = "" ∧ p.receiver_out_1.length < 1
    · rw [if_pos hcond] at hres
      simp at hres
    · rw [if_neg hcond] at hres
      simp only [Option.some.injEq] at hres
      subst hres
      refine ⟨rfl, ?_, by simp [create_fraud_result, ge_iff_le]⟩
      simp only [create_fraud_result]
      by_cases hso : p.sender_out_1 = [] <;>
        by_cases hs : p.sender_direct = "" <;>
        by_cases hr : p.receiver_direct = "" <;>
        simp [hso, hs, hr, create_flagged_connection, List.length_append,
          List.length_map, List.length_pos, List.length_eq_zero] <;>
        omega

/-- C3 witness: the triggered-result properties at a concrete projection with
the sender endpoint directly flagged. -/
theorem c3_rt1_characterisation_witness :
    (create_fraud_result 100 "blocked"
      (.rt1 { flagged_connections := [create_flagged_connection "acc_9" "sender" 0 100],
              max_level := 0, total_connections := 1, detection_time := "T",
              fraud_score := 100,
              reason := "Connected to 1 flagged account(s) - direct fraud",
              rule := "RT1_MultiLevelFlaggedAccountRule" }) "T").details.ruleId =
        "RT1_MultiLevelFlaggedAccountRule" ∧
    (create_fraud_result 100 "blocked"
      (.rt1 { flagged_connections := [create_flagged_connection "acc_9" "sender" 0 100],
              max_level := 0, total_connections := 1, detection_time := "T",
              fraud_score := 100,
              reason := "Connected to 1 flagged account(s) - direct fraud",
              rule := "RT1_MultiLevelFlaggedAccountRule" }) "T").fraud_score =
      (if ([] : List String) = [] then 100
        else min (75 + ((if ("acc_9" : String) = "" then 0 else 1) +
          (if ("" : String) = "" then 0 else 1) +
          ([] : List String).length + ([] : List String).length) * 5) 95) := by
  have h := (c3_rt1_characterisation "T" ⟨"acc_9", [], "", []⟩).2
    (create_fraud_result 100 "blocked"
      (.rt1 { flagged_connections := [create_flagged_connection "acc_9" "sender" 0 100],
              max_level := 0, total_connections := 1, detection_time := "T",
              fraud_score := 100,
              reason := "Connected to 1 flagged account(s) - direct fraud",
              rule := "RT1_MultiLevelFlaggedAccountRule" }) "T") rfl
  exact ⟨h.1, h.2.1⟩

/-- A rule triple carries a result exactly when its triggered flag is set:
RT1. -/
theorem rt1_result_isSome (now : String) (p : RT1Projection) :
    (run_rt1_fraud_detection now p).2.2.isSome = (run_rt1_fraud_detection now p).1 := by
  unfold run_rt1_fraud_detection
  by_cases hcond : p.sender_direct = "" ∧ p.sender_out_1.length < 1 ∧
      p.receiver_direct = "" ∧ p.receiver_out_1.length < 1
  · rw [if_pos hcond]
    rfl
  · rw [if_neg hcond]
    rfl

/-- A rule triple carries a result exactly when its triggered flag is set:
RT2. -/
theorem rt2_result_isSome (now : String) (p : RT2Projection) :
    (run_rt2_fraud_detection now p).2.2.isSome = (run_rt2_fraud_detection now p).1 := by
  unfold run_rt2_fraud_detection
  by_cases hcond : p.devices.length < 1
  · rw [if_pos hcond]
    rfl
  · rw [if_neg hcond]
    rfl

/-- The rt1 entry of fraud_checks is present iff rt1 is enabled and RT1
triggered. -/
theorem rt1_check_isSome (cfg : FraudConfig) (now : String) (env : EdgeEnv) :
    (rt1_check cfg now env).isSome =
      (cfg.rt1_enabled && (run_rt1_fraud_detection now env.rt1proj).1) := by
  unfold rt1_check
  by_cases he : cfg.rt1_enabled <;> simp [he]
  by_cases ht : (run_rt1_fraud_detection now env.rt1proj).1 <;> simp [ht]
  rw [rt1_result_isSome]
  exact ht

/-- The rt2 entry of fraud_checks is present iff rt2 is enabled and RT2
triggered. -/
theorem rt2_check_isSome (cfg : FraudConfig) (now : String) (env : EdgeEnv) :
    (rt2_check cfg now env).isSome =
      (cfg.rt2_enabled && (run_rt2_fraud_detection now env.rt2proj).1) := by
  unfold rt2_check
  by_cases he : cfg.rt2_enabled <;> simp [he]
  by_cases ht : (run_rt2_fraud_detection now env.rt2proj).1 <;> simp [ht]
  rw [rt2_result_isSome]
  exact ht

/-- C1 counterexample: with rt3 enabled alongside rt1 (all flags are
process-wide togglable), an evaluation in which the enabled rule RT1
triggered still writes no annotation: run_fraud_detection raises at the RT3
step, because run_rt3_fraud_detection returns None in place of a triple. -/
theorem c1_counterexample :
    (⟨true, false, true⟩ : FraudConfig).rt1_enabled = true ∧
    (run_rt1_fraud_detection "T"
      (⟨"acc_9", [], "", []⟩ : RT1Projection)).1 = true ∧
    (∃ msg, run_fraud_detection ⟨true, false, true⟩ "T"
      ⟨"e1", "t1", ⟨"acc_9", [], "", []⟩, ⟨"", "", [], []⟩⟩ = Except.error msg) ∧
    (∀ a, run_fraud_detection ⟨true, false, true⟩ "T"
      ⟨"e1", "t1", ⟨"acc_9", [], "", []⟩, ⟨"", "", [], []⟩⟩ ≠ Except.ok (some a)) := by
  refine ⟨rfl, rfl, ⟨_, rfl⟩, ?_⟩
  intro a h
  exact absurd h (by simp [run_fraud_detection, run_rt3_fraud_detection])

/-- C1 amended: when rt3 is disabled (its default), run_fraud_detection
writes an annotation iff at least one enabled rule triggered, and the
annotation merges the triggered results exactly as claimed: score is the
maximum triggered score, status is blocked iff some triggered rule demanded
blocked and review otherwise, and details holds one JSON dump per triggered
rule.  With rt3 enabled every evaluation raises instead (see the
counterexample). -/
theorem c1_merge_policy (cfg : FraudConfig) (now : String) (env : EdgeEnv)
    (h3 : cfg.rt3_enabled = false) :
    ((∃ a, run_fraud_detection cfg now env = Except.ok (some a)) ↔
      ((cfg.rt1_enabled = true ∧ (run_rt1_fraud_detection now env.rt1proj).1 = true) ∨
       (cfg.rt2_enabled = true ∧ (run_rt2_fraud_detection now env.rt2proj).1 = true))) ∧
    (∀ a, run_fraud_detection cfg now env = Except.ok (some a) →
      a.is_fraud = true ∧ a.eval_timestamp = now ∧
      triggeredResults cfg now env ≠ [] ∧
      a.fraud_score = ((triggeredResults cfg now env).map FraudResult.fraud_score).foldl max 0 ∧
      a.fraud_status = (if (triggeredResults cfg now env).any (fun r => r.status == "blocked")
        then "blocked" else "review") ∧
      a.details = (triggeredResults cfg now env).map (fun r => jsonDumps r.details)) := by
  have htrig1 := rt1_check_isSome cfg now env
  have htrig2 := rt2_check_isSome cfg now env
  rcases hC1 : rt1_check cfg now env with _ | r1 <;>
    rcases hC2 : rt2_check cfg now env with _ | r2 <;>
    rw [hC1] at htrig1 <;> rw [hC2] at htrig2 <;>
    simp only [Option.isSome_none, Option.isSome_some] at htrig1 htrig2
  · -- nothing triggered
    constructor
    · rw [run_fraud_detection]
      simp only [h3, Bool.false_eq_true, if_false, hC1, hC2]
      constructor
      · rintro ⟨a, ha⟩
        simp at ha
      · rintro (⟨he, ht⟩ | ⟨he, ht⟩)
        · rw [he, ht] at htrig1
          simp at htrig1
        · rw [he, ht] at htrig2
          simp at htrig2
    · intro a ha
      rw [run_fraud_detection] at ha
      simp only [h3, Bool.false_eq_true, if_false, hC1, hC2] at ha
      simp at ha
  · -- only rt2 triggered
    have hab : cfg.rt2_enabled = true ∧ (run_rt2_fraud_detection now env.rt2proj).1 = true := by
      have := htrig2.symm
      simpa [Bool.and_eq_true] using this
    constructor
    · rw [run_fraud_detection]
      simp only [h3, Bool.false_eq_true, if_false, hC1, hC2]
      constructor
      · intro _
        exact Or.inr hab
      · intro _
        simp
    · intro a ha
      rw [run_fraud_detection] at ha
      simp only [h3, Bool.false_eq_true, if_false, hC1, hC2] at ha
      simp at ha
      subst ha
      unfold triggeredResults
      rw [hC1, hC2]
      unfold store_fraud_results
      refine ⟨rfl, rfl, by simp, ?_, ?_, by simp⟩
      · simp only [List.foldl, Option.toList, List.nil_append, List.map, List.foldl_nil]
        split_ifs <;> omega
      · simp only [List.foldl, Option.toList, List.nil_append, List.map, List.any]
        by_cases hb : r2.status = "blocked" <;> simp [hb]
  · -- only rt1 triggered
    have hab : cfg.rt1_enabled = true ∧ (run_rt1_fraud_detection now env.rt1proj).1 = true := by
      have := htrig1.symm
      simpa [Bool.and_eq_true] using this
    constructor
    · rw [run_fraud_detection]
      simp only [h3, Bool.false_eq_true, if_false, hC1, hC2]
      constructor
      · intro _
        exact Or.inl hab
      · intro _
        simp
    · intro a ha
      rw [run_fraud_detection] at ha
      simp only [h3, Bool.false_eq_true, if_false, hC1, hC2] at ha
      simp at ha
      subst ha
      unfold triggeredResults
      rw [hC1, hC2]
      unfold store_fraud_results
      refine ⟨rfl, rfl, by simp, ?_, ?_, by simp⟩
      · simp only [List.foldl, Option.toList, List.nil_append, List.map, List.foldl_nil]
        split_ifs <;> omega
      · simp only [List.foldl, Option.toList, List.nil_append, List.map, List.any]
        by_cases hb : r1.status = "blocked" <;> simp [hb]
  · -- both triggered
    have hab1 : cfg.rt1_enabled = true ∧ (run_rt1_fraud_detection now env.rt1proj).1 = true := by
      have := htrig1.symm
      simpa [Bool.and_eq_true] using this
    constructor
    · rw [run_fraud_detection]
      simp only [h3, Bool.false_eq_true, if_false, hC1, hC2]
      constructor
      · intro _
        exact Or.inl hab1
      · intro _
        simp
    · intro a ha
      rw [run_fraud_detection] at ha
      simp only [h3, Bool.false_eq_true, if_false, hC1, hC2] at ha
      simp at ha
      subst ha
      unfold triggeredResults
      rw [hC1, hC2]
      unfold store_fraud_results
      refine ⟨rfl, rfl, by simp, ?_, ?_, by simp⟩
      · simp only [List.foldl, Option.toList, List.singleton_append, List.cons_append,
          List.nil_append, List.map, List.foldl_nil]
        split_ifs <;> omega
      · simp only [List.foldl, Option.toList, List.singleton_append, List.cons_append,
          List.nil_append, List.map, List.any]
        by_cases hb1 : r1.status = "blocked" <;> by_cases hb2 : r2.status = "blocked" <;>
          simp [hb1, hb2]

/-- C1 witness: with the default flags (rt3 disabled) and both projections
triggering, an annotation is written. -/
theorem c1_merge_policy_witness :
    initFraudService.rt3_enabled = false ∧
    ∃ a, run_fraud_detection initFraudService "T"
      ⟨"e1", "t1", ⟨"acc_9", [], "", []⟩, ⟨"u1", "u2", [], ["dev_7"]⟩⟩ =
        Except.ok (some a) :=
  ⟨rfl,
   (c1_merge_policy initFraudService "T"
      ⟨"e1", "t1", ⟨"acc_9", [], "", []⟩, ⟨"u1", "u2", [], ["dev_7"]⟩⟩ rfl).1.mpr
     (Or.inl ⟨rfl, rfl⟩)⟩

/-- C7 counterexample: with the default cap max_generation_rate = 50, a
requested rate of 51 exceeds the cap yet start_generation proceeds and
returns true (given a live account fetch and a successful scheduler start),
both directly and through the CLI front end: no rate validation happens. -/
theorem c7_counterexample :
    initGeneratorState.max_generation_rate = 50 ∧
    (50 : Rat) < 51 ∧
    (start_generation initGeneratorState 51 "" (Except.ok ["acc_1", "acc_2"]) true).1 = true ∧
    (cli_start_generator initGeneratorState 51 (Except.ok ["acc_1", "acc_2"]) true).1 = true := by
  refine ⟨rfl, by norm_num, rfl, ?_⟩
  rw [cli_start_generator, if_neg (by norm_num)]
  rfl

/-- C7 amended: start_generation performs no rate validation at all — for
every rate, including rates above max_generation_rate, it succeeds whenever
the generator is not already running, the account fetch returns at least one
id and the scheduler start succeeds; the CLI wrapper _start_generator rejects
only tps ≤ 0 and forwards every positive tps unchecked. -/
theorem c7_no_rate_validation (st : GeneratorState) (rate : Rat)
    (accounts : List String) (hrun : st.is_running = false) (hacc : accounts ≠ []) :
    (start_generation st rate "" (Except.ok accounts) true).1 = true ∧
    (0 < rate → cli_start_generator st rate (Except.ok accounts) true =
      start_generation st rate "" (Except.ok accounts) true) ∧
    (rate ≤ 0 → (cli_start_generator st rate (Except.ok accounts) true).1 = false) := by
  have hlen : ¬ accounts.length < 1 := by
    simpa [Nat.lt_one_iff, List.length_eq_zero] using hacc
  refine ⟨?_, ?_, ?_⟩
  · rw [start_generation, if_neg (by simp [hrun])]
    simp [hlen]
  · intro hpos
    rw [cli_start_generator, if_neg (by simpa using not_le.mpr hpos)]
  · intro hneg
    rw [cli_start_generator, if_pos hneg]

/-- C7 witness: the amended statement at the concrete over-limit rate 51. -/
theorem c7_no_rate_validation_witness :
    (start_generation initGeneratorState 51 "" (Except.ok ["acc_1", "acc_2"]) true).1 = true ∧
    cli_start_generator initGeneratorState 51 (Except.ok ["acc_1", "acc_2"]) true =
      start_generation initGeneratorState 51 "" (Except.ok ["acc_1", "acc_2"]) true := by
  have h := c7_no_rate_validation initGeneratorState 51 ["acc_1", "acc_2"] rfl (by decide)
  exact ⟨h.1, h.2.1 (by norm_num)⟩

/-- C10 counterexample: a refreshed cache of exactly one account id has size
below two, yet start_generation proceeds: it returns true, resets the
performance metrics, sets the running flag and starts the scheduler.  The
source guards only against an empty cache (len < 1). -/
theorem c10_counterexample :
    (["acc_1"] : List String).length < 2 ∧
    (start_generation initGeneratorState 5 "" (Except.ok ["acc_1"]) true).1 = true ∧
    (start_generation initGeneratorState 5 "" (Except.ok ["acc_1"]) true).2.1.is_running = true ∧
    (start_generation initGeneratorState 5 "" (Except.ok ["acc_1"]) true).2.2.metricsReset = true ∧
    (start_generation initGeneratorState 5 "" (Except.ok ["acc_1"]) true).2.2.schedulerStartCalled
      = true := by
  exact ⟨by norm_num, rfl, rfl, rfl, rfl⟩

/-- C10 amended: the account-cache guard of start_generation fires on zero
ids, not on fewer than two.  On a non-running generator, a fetch that raises
or returns zero ids makes start_generation fail exactly as the claim
describes: it returns false, the running flag stays false, the performance
metrics are not reset and the scheduler is not started (the worker pool,
however, has already been started).  A cache of exactly one account id does
not trigger this failure: the call goes on to reset the metrics and start
the scheduler, and returns true when the scheduler start succeeds. -/
theorem c10_empty_cache_start_fails (st : GeneratorState) (rate : Rat) (ts : String)
    (schedOk : Bool) (hrun : st.is_running = false) :
    (∀ msg, start_generation st rate ts (Except.error msg) schedOk =
      (false, st,
        { workersStarted := true, metricsReset := false, schedulerStartCalled := false })) ∧
    start_generation st rate ts (Except.ok []) schedOk =
      (false, { st with account_vertices := [] },
        { workersStarted := true, metricsReset := false, schedulerStartCalled := false }) ∧
    (∀ a : String, start_generation st rate ts (Except.ok [a]) true =
      (true,
        { st with
          account_vertices := [a], generation_rate := rate, is_running := true,
          transaction_counter := 0, start_time := ts },
        { workersStarted := true, metricsReset := true, schedulerStartCalled := true })) := by
  refine ⟨?_, ?_, ?_⟩
  · intro msg
    rw [start_generation, if_neg (by simp [hrun])]
    rfl
  · rw [start_generation, if_neg (by simp [hrun])]
    simp [noStartEffects]
  · intro a
    rw [start_generation, if_neg (by simp [hrun])]
    simp [noStartEffects]

/-- C10 witness: the amended statement at a concrete empty fetch and at a
concrete one-account fetch. -/
theorem c10_empty_cache_start_fails_witness :
    start_generation initGeneratorState 5 "" (Except.ok []) true =
      (false, { initGeneratorState with account_vertices := [] },
        { workersStarted := true, metricsReset := false, schedulerStartCalled := false }) ∧
    start_generation initGeneratorState 5 "" (Except.ok ["acc_1"]) true =
      (true,
        { initGeneratorState with
          account_vertices := ["acc_1"], generation_rate := 5,
          is_running := true, transaction_counter := 0, start_time := "" },
        { workersStarted := true, metricsReset := true, schedulerStartCalled := true }) :=
  ⟨(c10_empty_cache_start_fails initGeneratorState 5 "" true rfl).2.1,
   (c10_empty_cache_start_fails initGeneratorState 5 "" true rfl).2.2 "acc_1"⟩

/-- C9 witness: a concrete manual transaction between two accounts yields an
edge with distinct endpoints. -/
theorem c9_distinct_endpoints_witness :
    (create_manual_transaction ⟨fun _ => true, "edge_77", "txn_77", "loc", "T"⟩
      "acc_1" "acc_2" 5 "transfer" "MANUAL" false).2.1 =
      some { outV := "acc_1", inV := "acc_2", txn_id := "txn_77", amount := round2 5,
             currency := "USD", type := "transfer", method := "electronic_transfer",
             location := "loc", timestamp := "T", status := "completed",
             gen_type := "MANUAL" } ∧
    ("acc_1" : String) ≠ "acc_2" := by
  constructor
  · rfl
  · exact c9_distinct_endpoints.1 ⟨fun _ => true, "edge_77", "txn_77", "loc", "T"⟩
      "acc_1" "acc_2" 5 "transfer" "MANUAL" false
      { outV := "acc_1", inV := "acc_2", txn_id := "txn_77", amount := round2 5,
        currency := "USD", type := "transfer", method := "electronic_transfer",
        location := "loc", timestamp := "T", status := "completed", gen_type := "MANUAL" }
      rfl

/-! ### C8 : scheduler thread count and per-second burst bound -/

theorem countInSecond_cons (k : Int) (t : Rat) (l : List Rat) :
    countInSecond k (t :: l) = (if ⌊t⌋ = k then 1 else 0) + countInSecond k l := by
  by_cases h : ⌊t⌋ = k <;> simp [countInSecond, List.filter_cons, h, Nat.add_comm]

theorem countInSecond_eq_zero (k : Int) (l : List Rat) (h : ∀ t ∈ l, ⌊t⌋ ≠ k) :
    countInSecond k l = 0 := by
  induction l with
  | nil => rfl
  | cons t rest ih =>
      rw [countInSecond_cons, if_neg (h t (by simp)),
        ih fun t' ht' => h t' (List.mem_cons_of_mem _ ht')]

/-- The submission times a scheduler thread emits form a sublist of the
iteration times. -/
theorem schedRun_sublist (w : Rat) : ∀ (ts : List Rat) (st : SchedState),
    (schedRun w st ts).Sublist ts := by
  intro ts
  induction ts with
  | nil => intro st; simp [schedRun]
  | cons t rest ih =>
      intro st
      rw [schedRun]
      by_cases hb : (schedStep w st t).2 = true
      · simp only [hb, if_true]
        exact (ih _).cons₂ t
      · rw [Bool.not_eq_true] at hb
        simp only [hb, Bool.false_eq_true, if_false]
        exact (ih _).cons t

theorem pyInt_eq_floor (q : Rat) (hq : 0 ≤ q) : pyInt q = ⌊q⌋ := if_pos hq

theorem max_txn_nonneg (w : Rat) (hw : 0 ≤ w) :
    0 ≤ max_transactions_per_second w := by
  unfold max_transactions_per_second
  rw [pyInt_eq_floor w hw]
  have h : (0 : Rat) ≤ (⌊w⌋ : Rat) := by exact_mod_cast Int.floor_nonneg.mpr hw
  positivity

/-- The burst check `sent >= cap` with an integer counter admits up to
ceil(cap) submissions: cap is bounded by the natural number burstCapN. -/
theorem max_txn_le_burstCapN (w : Rat) (hw : 0 ≤ w) :
    max_transactions_per_second w ≤ (burstCapN w : Rat) := by
  have h0 : 0 ≤ ⌈max_transactions_per_second w⌉ := Int.ceil_nonneg (max_txn_nonneg w hw)
  have h1 := Int.le_ceil (max_transactions_per_second w)
  have h2 : ((burstCapN w : Nat) : Rat) = ((⌈max_transactions_per_second w⌉ : Int) : Rat) := by
    unfold burstCapN
    exact_mod_cast congrArg (fun z : Int => (z : Rat)) (Int.toNat_of_nonneg h0)
  rw [h2]
  exact h1

/-- The burst bound of the code, ceil(int(w) * 1.5), is at most the claimed
bound ceil(w * 1.5). -/
theorem burstCapN_le_ceil (w : Rat) (hw : 0 ≤ w) :
    (burstCapN w : Int) ≤ ⌈w * 3 / 2⌉ := by
  unfold burstCapN
  rw [Int.toNat_of_nonneg (Int.ceil_nonneg (max_txn_nonneg w hw))]
  apply Int.ceil_mono
  unfold max_transactions_per_second
  rw [pyInt_eq_floor w hw]
  have h : (⌊w⌋ : Rat) ≤ w := Int.floor_le w
  linarith

theorem resetState_eq_self (st : SchedState) (t : Rat) (h : ⌊t⌋ = st.current_second) :
    resetState st t = st := by
  unfold resetState
  rw [if_neg (by simp [h])]

theorem resetState_of_ne (st : SchedState) (t : Rat) (h : ⌊t⌋ ≠ st.current_second) :
    resetState st t =
      { st with current_second := ⌊t⌋, transactions_this_second := 0 } :=
  if_pos h

theorem resetState_current_second (st : SchedState) (t : Rat) :
    (resetState st t).current_second = ⌊t⌋ := by
  by_cases h : ⌊t⌋ = st.current_second
  · rw [resetState_eq_self st t h, h]
  · rw [resetState_of_ne st t h]

/-- A loop iteration either submits nothing and only performs the per-second
reset, or submits one task while the counter is strictly below the burst
bound. -/
theorem schedStep_spec (w : Rat) (st : SchedState) (t : Rat) :
    schedStep w st t = (resetState st t, false) ∨
    (schedStep w st t =
        ({ resetState st t with
            transactions_this_second := (resetState st t).transactions_this_second + 1,
            next_time := (resetState st t).next_time + 1 / w }, true) ∧
      ((resetState st t).transactions_this_second : Rat) < max_transactions_per_second w) := by
  unfold schedStep
  by_cases hcap : max_transactions_per_second w ≤
      ((resetState st t).transactions_this_second : Rat)
  · left
    rw [if_pos hcap]
  · by_cases htime : (resetState st t).next_time ≤ t
    · right
      rw [if_neg hcap, if_pos htime]
      exact ⟨rfl, not_le.mp hcap⟩
    · left
      rw [if_neg hcap, if_neg htime]

/-- Core burst invariant of the pacing loop: over any trace of nondecreasing
iteration times, the submissions that fall into the aligned second k, plus
the part of the counter already used for k, never exceed burstCapN. -/
theorem schedRun_count_bound (w : Rat) (hw : 0 ≤ w) :
    ∀ (ts : List Rat), ts.Sorted (· ≤ ·) → ∀ (st : SchedState) (k : Int),
      (∀ t ∈ ts, st.current_second ≤ ⌊t⌋) →
      countInSecond k (schedRun w st ts) +
        min (burstCapN w)
          (if st.current_second = k then st.transactions_this_second else 0) ≤
        burstCapN w := by
  intro ts
  induction ts with
  | nil =>
      intro _ st k _
      have h0 : countInSecond k (schedRun w st []) = 0 := rfl
      rw [h0, Nat.zero_add]
      exact min_le_left _ _
  | cons t rest ih =>
      intro hsort st k hfloor
      have hhead : ∀ b ∈ rest, t ≤ b := List.rel_of_sorted_cons hsort
      have hrest_sorted : rest.Sorted (· ≤ ·) := hsort.of_cons
      have hst_t : st.current_second ≤ ⌊t⌋ := hfloor t (List.mem_cons_self t rest)
      have hrest_floor : ∀ t' ∈ rest, ⌊t⌋ ≤ ⌊t'⌋ := fun t' ht' => Int.floor_mono (hhead t' ht')
      have hzero : ∀ st' : SchedState, k < ⌊t⌋ →
          countInSecond k (schedRun w st' rest) = 0 := by
        intro st' hk
        apply countInSecond_eq_zero
        intro t' ht'
        have hmem : t' ∈ rest := (schedRun_sublist w rest st').subset ht'
        have := hrest_floor t' hmem
        omega
      rw [schedRun]
      rcases schedStep_spec w st t with heq | ⟨heq, hlt⟩
      · -- no submission this iteration
        simp only [heq, Bool.false_eq_true, if_false]
        have ihr := ih hrest_sorted (resetState st t) k
          (fun t' ht' => by rw [resetState_current_second]; exact hrest_floor t' ht')
        by_cases hsec : ⌊t⌋ = st.current_second
        · rw [resetState_eq_self st t hsec] at ihr ⊢
          exact ihr
        · have hv : (resetState st t).transactions_this_second = 0 := by
            rw [resetState_of_ne st t hsec]
          rw [resetState_current_second, hv, ite_self, Nat.min_zero, Nat.add_zero] at ihr
          by_cases hck : st.current_second = k
          · have hk : k < ⌊t⌋ := by omega
            rw [hzero _ hk, if_pos hck, Nat.zero_add]
            exact min_le_left _ _
          · rw [if_neg hck, Nat.min_zero, Nat.add_zero]
            exact ihr
      · -- one task submitted at time t
        simp only [heq, if_true]
        set st2 : SchedState :=
          { resetState st t with
            transactions_this_second := (resetState st t).transactions_this_second + 1,
            next_time := (resetState st t).next_time + 1 / w } with hst2
        rw [countInSecond_cons]
        have hsent_lt : (resetState st t).transactions_this_second < burstCapN w := by
          have hq : ((resetState st t).transactions_this_second : Rat) < (burstCapN w : Rat) :=
            lt_of_lt_of_le hlt (max_txn_le_burstCapN w hw)
          exact_mod_cast hq
        have hc2 : st2.current_second = ⌊t⌋ := resetState_current_second st t
        have hv2 : st2.transactions_this_second =
            (resetState st t).transactions_this_second + 1 := rfl
        have ihr := ih hrest_sorted st2 k
          (fun t' ht' => by rw [hc2]; exact hrest_floor t' ht')
        rw [hc2, hv2] at ihr
        by_cases htk : ⌊t⌋ = k
        · rw [if_pos htk]
          rw [if_pos htk] at ihr
          rw [min_eq_right (by omega :
            (resetState st t).transactions_this_second + 1 ≤ burstCapN w)] at ihr
          by_cases hsec : ⌊t⌋ = st.current_second
          · have hck : st.current_second = k := by omega
            have hv : (resetState st t).transactions_this_second =
                st.transactions_this_second := by
              rw [resetState_eq_self st t hsec]
            rw [if_pos hck, ← hv,
              min_eq_right (le_of_lt hsent_lt)]
            omega
          · have hck : ¬ st.current_second = k := by omega
            rw [if_neg hck, Nat.min_zero]
            omega
        · rw [if_neg htk]
          rw [if_neg htk] at ihr
          rw [Nat.min_zero, Nat.add_zero] at ihr
          by_cases hck : st.current_second = k
          · have hk : k < ⌊t⌋ := by omega
            rw [hzero _ hk, if_pos hck]
            simp [min_le_left (burstCapN w) st.transactions_this_second]
          · rw [if_neg hck, Nat.min_zero]
            simpa using ihr

/-- C8: for every positive target TPS the scheduler spawns exactly
ceil(TPS/100) threads, each assigned TPS/N; for TPS = 250 that is 3 threads
at 250/3 TPS each (83.33 to two decimals) with an effective per-second burst
cap of 125 submissions; and over any nondecreasing trace of loop iteration
times a thread submits at most ceil(worker_tps * 1.5) tasks in any aligned
wall-clock second. -/
theorem c8_scheduler_pacing :
    (∀ tps : Rat, 0 < tps → workers_needed tps = ⌈tps / 100⌉) ∧
    workers_needed 250 = 3 ∧
    tps_per_worker 250 = 250 / 3 ∧
    ⌊tps_per_worker 250 * 100⌋ = 8333 ∧
    burstCapN (tps_per_worker 250) = 125 ∧
    (∀ w : Rat, 0 ≤ w → ∀ ts : List Rat, ts.Sorted (· ≤ ·) →
      ∀ st : SchedState, st.transactions_this_second = 0 →
      (∀ t ∈ ts, st.current_second ≤ ⌊t⌋) →
      ∀ k : Int, (countInSecond k (schedRun w st ts) : Int) ≤ ⌈w * 3 / 2⌉) := by
  have hw250 : workers_needed 250 = 3 := by
    unfold workers_needed
    rw [show ⌈(250 : Rat) / 100⌉ = 3 from Int.ceil_eq_iff.mpr (by norm_num)]
    rfl
  have htpw : tps_per_worker 250 = 250 / 3 := by
    unfold tps_per_worker
    rw [hw250]
    norm_num
  refine ⟨?_, hw250, htpw, ?_, ?_, ?_⟩
  · intro tps hpos
    unfold workers_needed
    exact max_eq_right (Int.ceil_pos.mpr (by positivity))
  · rw [htpw]
    exact Int.floor_eq_iff.mpr (by norm_num)
  · rw [htpw]
    unfold burstCapN max_transactions_per_second
    rw [pyInt_eq_floor _ (by norm_num),
      show ⌊(250 : Rat) / 3⌋ = 83 from Int.floor_eq_iff.mpr (by norm_num),
      show ((83 : Int) : Rat) * 3 / 2 = 249 / 2 by norm_num,
      show ⌈(249 : Rat) / 2⌉ = 125 from Int.ceil_eq_iff.mpr (by norm_num)]
    rfl
  · intro w hw ts hsort st hsent hfloor k
    have h1 := schedRun_count_bound w hw ts hsort st k hfloor
    rw [hsent, ite_self, Nat.min_zero, Nat.add_zero] at h1
    calc (countInSecond k (schedRun w st ts) : Int) ≤ (burstCapN w : Int) := by
          exact_mod_cast h1
      _ ≤ ⌈w * 3 / 2⌉ := burstCapN_le_ceil w hw

/-- C8 witness: the thread-count formula at TPS 250 and the per-second bound
on a concrete two-iteration trace. -/
theorem c8_scheduler_pacing_witness :
    workers_needed 250 = ⌈(250 : Rat) / 100⌉ ∧
    (countInSecond 0 (schedRun (250 / 3) ⟨-1, 0, 0⟩ [0, 1 / 2]) : Int) ≤
      ⌈(250 / 3 : Rat) * 3 / 2⌉ := by
  constructor
  · exact c8_scheduler_pacing.1 250 (by norm_num)
  · apply c8_scheduler_pacing.2.2.2.2.2 (250 / 3) (by norm_num) [0, 1 / 2]
      (by
        rw [List.sorted_cons]
        refine ⟨?_, List.sorted_singleton _⟩
        intro b hb
        rw [List.mem_singleton] at hb
        rw [hb]
        norm_num)
      ⟨-1, 0, 0⟩ rfl
      (by
        intro t ht
        rw [List.mem_cons, List.mem_singleton] at ht
        rcases ht with h | h <;> rw [h] <;>
          exact Int.le_floor.mpr (by norm_num))
      0

end FraudDemo
